import Mathlib

/-!
Verification of the Mammotion cloud API client (a Node.js Homey app) against
its natural-language specification.  The JavaScript source is shallowly
embedded: pure computations become Lean functions, the stateful client
becomes explicit state passing over a `Session` record, network and crypto
primitives (Node's `https` and `crypto` modules, `Date.now`, `Math.random`)
become explicit parameters, and thrown errors become `Except` values.
JavaScript truthiness (`||`, `if (x)`) is modelled explicitly where the code
relies on it.
-/

namespace Mammotion

/-! ## Constants (src/lib/constants.js) -/

def APP_KEY : String := "34231230"

def APP_SECRET : String := "1ba85698bb10e19c6437413b61ba3445"

def MAMMOTION_OAUTH2_CLIENT_ID : String := "GxebgSt8si6pKqR"

def MAMMOTION_OAUTH2_CLIENT_SECRET : String := "JP0508SRJFa0A90ADpzLINDBxMa4Vj"

def DEFAULT_REGION : String := "EU"

def MAX_RETRIES : Nat := 3

def RETRY_DELAY : Nat := 1000

def RETRY_MULTIPLIER : Nat := 2

/-! ## JavaScript truthiness helpers

The client code uses `a || b` and `if (x)` on strings and numbers, where
the empty string, `0`, `null` and `undefined` are falsy.  `Option String`
models a possibly-`null`/`undefined` string, `Option Int` a
possibly-`null`/`undefined` number. -/

/-- Truthiness of a JS string value: `null`, `undefined` and `""` are falsy. -/
def truthyStr (o : Option String) : Bool :=
  match o with
  | some s => s ≠ ""
  | none => false

/-- JS `a || b` on string values (empty string is falsy). -/
def jsOrStr (a b : Option String) : Option String :=
  match a with
  | some s => if s = "" then b else some s
  | none => b

/-- JS `a || b` on numeric values (`0` is falsy). -/
def jsOrInt (a b : Option Int) : Option Int :=
  match a with
  | some x => if x = 0 then b else some x
  | none => b

/-- JS `a || d` where `d` is a definite number (used for
`error.retryAfter || RETRY_DELAY`): `null`/`undefined`/`0` fall through. -/
def jsOrNat (a : Option Nat) (d : Nat) : Nat :=
  match a with
  | some x => if x = 0 then d else x
  | none => d

/-- JS numeric coercion of a possibly-`null` number as it happens in a
comparison such as `expiry > t` (`null` coerces to `0`). -/
def jsNum (a : Option Int) : Int :=
  match a with
  | some x => x
  | none => 0

/-! ## Mower states (src/lib/constants.js MOWER_STATES) -/

inductive MowerState where
  | idle
  | mowing
  | charging
  | returning
  | paused
  | error
  | offline
deriving DecidableEq, Repr

/-! ## Status normalization
(src/unnamed/part_002, BaseMowerDevice.updateStatus, the mower-state
switch).  The raw status bag carries an optional numeric work-state code
and an optional numeric charge-state code; the device layer normalizes
them to a `MowerState`. -/

/-- The mower-state determination inside `BaseMowerDevice.updateStatus`:
`switch (status.workState)` with cases 1..5 and a default of idle when
`workState !== undefined`, otherwise charging exactly when
`status.chargeState === 1`, otherwise idle. -/
def updateStatusMowerState (workState : Option Int) (chargeState : Option Int) :
    MowerState :=
  match workState with
  | some w =>
      if w = 1 then .mowing
      else if w = 2 then .charging
      else if w = 3 then .returning
      else if w = 4 then .paused
      else if w = 5 then .error
      else .idle
  | none =>
      if chargeState = some 1 then .charging else .idle

/-! ## Error taxonomy (src/lib/errors.js)

The JS classes form a hierarchy: `TokenExpiredError` and
`SessionInvalidError` are subclasses of `AuthenticationError`; the others
are siblings under `MammotionError`.  The hierarchy is flattened into one
inductive and the two `instanceof` tests the retry loop performs are
explicit predicates. -/

inductive MErr where
  /-- plain `AuthenticationError` with its message -/
  | authError (msg : String)
  /-- The `SessionInvalidError` class (subclass of `AuthenticationError`) -/
  | sessionInvalid
  /-- The `TokenExpiredError` class (subclass of `AuthenticationError`) -/
  | tokenExpired
  /-- The `RateLimitError` class, carrying the optional `retryAfter` field -/
  | rateLimited (retryAfter : Option Nat)
  /-- The `DeviceOfflineError` class -/
  | deviceOffline
  /-- generic `ApiError` -/
  | apiError
  /-- The `NetworkError` class -/
  | networkError
deriving DecidableEq, Repr

/-- The test `error instanceof AuthenticationError`. -/
def MErr.isAuthenticationError : MErr → Bool
  | .authError _ => true
  | .sessionInvalid => true
  | .tokenExpired => true
  | _ => false

/-- The test `error instanceof TokenExpiredError`. -/
def MErr.isTokenExpired : MErr → Bool
  | .tokenExpired => true
  | _ => false

/-- The test `error instanceof RateLimitError`, extracting `retryAfter`. -/
def MErr.rateLimitRetryAfter : MErr → Option (Option Nat)
  | .rateLimited ra => some ra
  | _ => none

/-! ## Retry orchestrator (src/lib/mammotion-api.js, MammotionApi.retry:
the private method spelled with a leading underscore in the source).

The wrapped call `fn` is modelled as a function from the call number
(equivalently the loop's attempt number, since each iteration calls `fn`
exactly once) to its outcome, and `refreshSession` as a function from the
refresh-call number to an optional thrown error (`none` is success; a
successful refresh keeps a refresh token stored, so the truthiness of
`this.refreshToken` is a constant `hasRefreshToken` across the loop).
Sleeps are recorded, not performed. -/

structure RetryResult (α : Type) where
  /-- the value returned to the caller, or the error thrown to it -/
  outcome : Except MErr α
  /-- how many times `refreshSession()` was invoked -/
  refreshCalls : Nat
  /-- the backoff sleeps performed, in order, in milliseconds -/
  delays : List Nat
  /-- how many times `fn()` was invoked -/
  fnCalls : Nat
deriving Repr

/-- One pass of the `for (attempt = 0; attempt <= maxRetries; attempt++)`
loop body, recursing on the number of iterations left.  `delaysRev` holds
the sleeps recorded so far, most recent first.  The fuel-exhausted base
case is the loop exit, which throws `lastError`; the loop always runs at
least one iteration, so the `none` default there is unreachable from
`retryRun`. -/
def retryAux (hasRefreshToken : Bool) (fn : Nat → Except MErr α)
    (refresh : Nat → Option MErr) (maxRetries : Nat) :
    (fuel attempt refreshIdx : Nat) → (delaysRev : List Nat) →
    (lastError : Option MErr) → RetryResult α
  | 0, attempt, refreshIdx, delaysRev, lastError =>
      { outcome := .error (lastError.getD .apiError),
        refreshCalls := refreshIdx, delays := delaysRev.reverse,
        fnCalls := attempt }
  | fuel + 1, attempt, refreshIdx, delaysRev, _ =>
      match fn attempt with
      | .ok v =>
          { outcome := .ok v, refreshCalls := refreshIdx,
            delays := delaysRev.reverse, fnCalls := attempt + 1 }
      | .error e =>
          if e.isAuthenticationError ∧ ¬ e.isTokenExpired then
            -- terminal: re-raise immediately
            { outcome := .error e, refreshCalls := refreshIdx,
              delays := delaysRev.reverse, fnCalls := attempt + 1 }
          else if e.isTokenExpired ∧ hasRefreshToken then
            match refresh refreshIdx with
            | some re =>
                -- refreshSession threw: propagates out of the loop
                { outcome := .error re, refreshCalls := refreshIdx + 1,
                  delays := delaysRev.reverse, fnCalls := attempt + 1 }
            | none =>
                retryAux hasRefreshToken fn refresh maxRetries fuel
                  (attempt + 1) (refreshIdx + 1) delaysRev (some e)
          else
            match e.rateLimitRetryAfter with
            | some ra =>
                retryAux hasRefreshToken fn refresh maxRetries fuel
                  (attempt + 1) refreshIdx
                  (jsOrNat ra RETRY_DELAY * RETRY_MULTIPLIER ^ attempt :: delaysRev)
                  (some e)
            | none =>
                if attempt < maxRetries then
                  retryAux hasRefreshToken fn refresh maxRetries fuel
                    (attempt + 1) refreshIdx
                    (RETRY_DELAY * RETRY_MULTIPLIER ^ attempt :: delaysRev)
                    (some e)
                else
                  retryAux hasRefreshToken fn refresh maxRetries fuel
                    (attempt + 1) refreshIdx delaysRev (some e)

/-- The retry wrapper: runs the loop with attempts 0 through `maxRetries`
inclusive. -/
def retryRun (hasRefreshToken : Bool) (fn : Nat → Except MErr α)
    (refresh : Nat → Option MErr) (maxRetries : Nat) : RetryResult α :=
  retryAux hasRefreshToken fn refresh maxRetries (maxRetries + 1) 0 0 [] none

/-! ## Session state (src/lib/mammotion-api.js, MammotionApi fields)

The mutable instance fields of `MammotionApi`.  `Option` models
`null`/`undefined`; `region` is a plain string because the constructor
always assigns one (`options.region || DEFAULT_REGION`). -/

structure Session where
  accessToken : Option String
  refreshToken : Option String
  tokenExpiry : Option Int
  identityId : Option String
  clientId : Option String
  iotEndpoint : Option String
  region : String
  email : Option String
  password : Option String
  iotToken : Option String
  iotTokenExpiry : Option Int
deriving DecidableEq, Repr

/-- Method `MammotionApi.isAuthenticated()`: with a 5-minute buffer,
`!!(token && expiry > (Date.now() + bufferTime))` where
`token = this.accessToken || this.iotToken` and
`expiry = this.tokenExpiry || this.iotTokenExpiry`.  `now` is the value of
`Date.now()` in milliseconds; a `null` expiry coerces to `0` in the
comparison. -/
def isAuthenticated (s : Session) (now : Int) : Bool :=
  let bufferTime : Int := 5 * 60 * 1000
  let token := jsOrStr s.accessToken s.iotToken
  let expiry := jsOrInt s.tokenExpiry s.iotTokenExpiry
  truthyStr token && decide (jsNum expiry > now + bufferTime)

/-! ## Auth state export / import
(src/lib/mammotion-api.js, getAuthState / restoreAuthState) -/

/-- The plain object produced by `getAuthState()` and accepted by
`restoreAuthState(state)`.  Every field may be absent, so that legacy
blobs (carrying only `iotToken` / `iotTokenExpiry`) are representable. -/
structure AuthState where
  accessToken : Option String
  refreshToken : Option String
  tokenExpiry : Option Int
  identityId : Option String
  clientId : Option String
  iotEndpoint : Option String
  region : Option String
  email : Option String
  iotToken : Option String
  iotTokenExpiry : Option Int
deriving DecidableEq, Repr

/-- Method `MammotionApi.getAuthState()`: exports the OAuth2 fields plus legacy
aliases `iotToken = this.accessToken || this.iotToken` and
`iotTokenExpiry = this.tokenExpiry || this.iotTokenExpiry`.  The stored
password is not exported. -/
def getAuthState (s : Session) : AuthState :=
  { accessToken := s.accessToken
    refreshToken := s.refreshToken
    tokenExpiry := s.tokenExpiry
    identityId := s.identityId
    clientId := s.clientId
    iotEndpoint := s.iotEndpoint
    region := some s.region
    email := s.email
    iotToken := jsOrStr s.accessToken s.iotToken
    iotTokenExpiry := jsOrInt s.tokenExpiry s.iotTokenExpiry }

/-- Function `generateMammotionClientId()` (src/unnamed/part_002): the string
`timestamp ++ "_" ++ random7digits ++ "_1"`, with `Date.now()` and the
random draw passed in explicitly. -/
def generateMammotionClientId (timestamp random : Nat) : String :=
  toString timestamp ++ "_" ++ toString random ++ "_1"

/-- Method `MammotionApi.restoreAuthState(state)` on a non-null `state`, applied
to the receiver `prev`: restores the OAuth2 layout, falling back to the
legacy `iotToken` / `iotTokenExpiry` fields, regenerates a client id when
the stored one is missing or blank (`state.clientId ||
generateMammotionClientId()`), defaults the region, and rebuilds the
legacy aliases.  The stored password is untouched. -/
def restoreAuthState (prev : Session) (state : AuthState)
    (timestamp random : Nat) : Session :=
  let accessToken := jsOrStr state.accessToken state.iotToken
  let tokenExpiry := jsOrInt state.tokenExpiry state.iotTokenExpiry
  { prev with
    accessToken := accessToken
    refreshToken := state.refreshToken
    tokenExpiry := tokenExpiry
    identityId := state.identityId
    clientId := jsOrStr state.clientId
      (some (generateMammotionClientId timestamp random))
    iotEndpoint := state.iotEndpoint
    region := (jsOrStr state.region (some DEFAULT_REGION)).getD DEFAULT_REGION
    email := state.email
    iotToken := accessToken
    iotTokenExpiry := tokenExpiry }

/-! ## Session refresh (src/lib/mammotion-api.js, refreshSession)

The network outcome of the refresh request (including the error
classification `_request` performs) and the outcome a fallback
`authenticate(this.email, this.password)` would have are passed in
explicitly; the claim under verification concerns the fallback control
flow, so token payloads are abstracted to `Unit`. -/

inductive RefreshNet where
  /-- the case that the refresh HTTP call threw (`ApiError`, `NetworkError`, ...) -/
  | throws (e : MErr)
  /-- 2xx response whose `data.access_token` is present -/
  | ok
  /-- 2xx response without `data.access_token` -/
  | okNoToken
deriving DecidableEq, Repr

/-- Result of a `refreshSession()` call: what it returns or throws, and
how many fallback `authenticate` calls it performed. -/
structure RefreshResult where
  result : Except MErr Unit
  authCalls : Nat
deriving Repr

/-- Method `MammotionApi.refreshSession()`: throws `AuthenticationError` at once
when no refresh token is stored; otherwise performs the refresh call.  A
token-bearing response succeeds; a thrown error falls back to one
`authenticate(email, password)` when both credentials are cached (its
outcome, success or failure, is returned directly — `authenticate` never
calls `refreshSession`, so there is no second fallback), or is re-thrown;
a token-less 2xx response reaches the final
`throw new AuthenticationError` after the try/catch, with no fallback. -/
def refreshSessionRun (s : Session) (net : RefreshNet)
    (authOutcome : Except MErr Unit) : RefreshResult :=
  if ¬ truthyStr s.refreshToken then
    { result := .error (.authError "No refresh token available"), authCalls := 0 }
  else
    match net with
    | .ok => { result := .ok (), authCalls := 0 }
    | .throws e =>
        if truthyStr s.email ∧ truthyStr s.password then
          { result := authOutcome, authCalls := 1 }
        else
          { result := .error e, authCalls := 0 }
    | .okNoToken =>
        { result := .error (.authError "Failed to refresh session"), authCalls := 0 }

/-! ## Aliyun-style signer (src/unnamed/part_002: sortParams,
generateApiSignature)

A JS object of request parameters is modelled as an insertion-ordered
association list with pairwise-distinct keys; `params[key]` becomes a
`find?` over it.  The `crypto` HMAC primitive is an explicit function
parameter, as is the clock/nonce pair the source draws from `Date.now()`
and `Math.random()`. -/

/-- Lookup `params[key]` inside the template literal of `sortParams` (a missing
key would interpolate as the string undefined; keys produced by
`Object.keys` are always present). -/
def getParam (params : List (String × String)) (k : String) : String :=
  match params.find? (fun p => p.1 == k) with
  | some p => p.2
  | none => "undefined"

/-- Function `sortParams(params)`: sort the keys lexicographically and join the
`key=value` pairs with an ampersand. -/
def sortParams (params : List (String × String)) : String :=
  String.intercalate "&"
    ((List.insertionSort (· ≤ ·) (params.map Prod.fst)).map
      (fun k => k ++ "=" ++ getParam params k))

/-- The JS object spread `{ ...a, ...b }`: keys of `a` in order (with the
value from `b` when `b` shares the key), then the keys of `b` not in
`a`. -/
def mergeParams (a b : List (String × String)) : List (String × String) :=
  a.map (fun p => (p.1, ((b.find? (fun q => q.1 == p.1)).map Prod.snd).getD p.2))
    ++ b.filter (fun q => ! a.any (fun p => p.1 == q.1))

/-- The common parameters `generateApiSignature` injects: `appKey`,
`timestamp`, `nonce`, and `iotToken` when a truthy one is supplied. -/
def commonApiParams (timestamp nonce : String) (iotToken : Option String) :
    List (String × String) :=
  [("appKey", APP_KEY), ("timestamp", timestamp), ("nonce", nonce)]
    ++ (if truthyStr iotToken then [("iotToken", iotToken.getD "")] else [])

structure ApiSignature where
  headers : List (String × String)
  params : List (String × String)
  signature : String
deriving Repr

/-- Function `generateApiSignature(path, params, options)`: merge the common
parameters with the request parameters, canonicalize with `sortParams`,
sign `path + "&" + sortedParamString` with HMAC-SHA256 under
`APP_SECRET` (base64 output), and return the `X-Ca-*` header set together
with the full parameter mapping. -/
def generateApiSignature (hmacSha256 : String → String → String)
    (path : String) (params : List (String × String))
    (iotToken : Option String) (timestamp nonce : String) : ApiSignature :=
  let allParams := mergeParams (commonApiParams timestamp nonce iotToken) params
  let sortedParamString := sortParams allParams
  let stringToSign := path ++ "&" ++ sortedParamString
  let signature := hmacSha256 stringToSign APP_SECRET
  { headers := [("Content-Type", "application/x-www-form-urlencoded"),
      ("X-Ca-Signature", signature),
      ("X-Ca-Signature-Method", "HmacSHA256"),
      ("X-Ca-Key", APP_KEY),
      ("X-Ca-Timestamp", timestamp),
      ("X-Ca-Nonce", nonce)],
    params := allParams,
    signature := signature }

/-! ## Vendor-OAuth signer (src/unnamed/part_002:
createMammotionOAuthSignature)

`JSON.stringify` of the flat string-valued login/refresh request objects
the client builds: compact (no inserted whitespace), field order
preserved, standard string escaping. -/

/-- JSON escaping of one character as `JSON.stringify` performs it. -/
def jsonEscapeChar (c : Char) : String :=
  if c = '"' then "\\\""
  else if c = '\\' then "\\\\"
  else if c = '\n' then "\\n"
  else if c = '\t' then "\\t"
  else if c = '\r' then "\\r"
  else if c = '\x08' then "\\b"
  else if c = '\x0c' then "\\f"
  else if c.toNat < 32 then
    "\\u00" ++ String.singleton (Nat.digitChar (c.toNat / 16))
      ++ String.singleton (Nat.digitChar (c.toNat % 16))
  else String.singleton c

/-- A JSON string literal: quote and escape. -/
def jsonQuote (s : String) : String :=
  "\"" ++ String.join (s.data.map jsonEscapeChar) ++ "\""

/-- Serialization `JSON.stringify` of a flat object with string values: compact, field
order preserved. -/
def compactJsonObj (obj : List (String × String)) : String :=
  "\x7b" ++ String.intercalate ","
      (obj.map (fun p => jsonQuote p.1 ++ ":" ++ jsonQuote p.2))
    ++ "\x7d"

/-- Function `createMammotionOAuthSignature(loginReq, tokenEndpoint)`: serialize
the request as compact JSON, build
`clientId + timestamp + endpoint + jsonData`, and HMAC-SHA256-sign it
(hex output) under the hex MD5 digest of the client secret.  The crypto
primitives (`crypto.createHmac('sha256', ...)` with hex digest, keyed
first; `crypto.createHash('md5')` with hex digest) and the
`Date.now().toString()` timestamp are explicit parameters.  Returns the
signature together with the timestamp used. -/
def createMammotionOAuthSignature (hmacSha256Hex : String → String → String)
    (md5Hex : String → String) (loginReq : List (String × String))
    (tokenEndpoint : String) (timestamp : String) : String × String :=
  let jsonData := compactJsonObj loginReq
  let stringToSign :=
    MAMMOTION_OAUTH2_CLIENT_ID ++ timestamp ++ tokenEndpoint ++ jsonData
  let md5Hash := md5Hex MAMMOTION_OAUTH2_CLIENT_SECRET
  (hmacSha256Hex md5Hash stringToSign, timestamp)

end Mammotion

namespace Mammotion

/-- C1: status normalization is a pure total function with the fixed code
table 1=Mowing, 2=Charging, 3=Returning, 4=Paused, 5=Error, anything else
Idle; with work state absent, Charging exactly when the charge state is 1,
otherwise Idle. -/
theorem C1_status_normalization (w : Int) (c : Option Int) :
    updateStatusMowerState (some 1) c = .mowing ∧
    updateStatusMowerState (some 2) c = .charging ∧
    updateStatusMowerState (some 3) c = .returning ∧
    updateStatusMowerState (some 4) c = .paused ∧
    updateStatusMowerState (some 5) c = .error ∧
    (w ≠ 1 → w ≠ 2 → w ≠ 3 → w ≠ 4 → w ≠ 5 →
      updateStatusMowerState (some w) c = .idle) ∧
    updateStatusMowerState none (some 1) = .charging ∧
    (c ≠ some 1 → updateStatusMowerState none c = .idle) := by
  refine ⟨rfl, rfl, rfl, rfl, rfl, ?_, rfl, ?_⟩
  · intro h1 h2 h3 h4 h5
    simp [updateStatusMowerState, h1, h2, h3, h4, h5]
  · intro hc
    simp [updateStatusMowerState, hc]

/-- Witness for C1 at a concrete out-of-range work state and a concrete
non-charging charge state. -/
theorem C1_status_normalization_witness :
    updateStatusMowerState (some 7) (some 0) = .idle ∧
    updateStatusMowerState none (some 0) = .idle := by
  have h := C1_status_normalization 7 (some 0)
  exact ⟨h.2.2.2.2.2.1 (by decide) (by decide) (by decide) (by decide) (by decide),
    h.2.2.2.2.2.2.2 (by decide)⟩

/-! Concrete call scripts used to exercise the retry orchestrator. -/

/-- A wrapped call that throws `TokenExpiredError` on its first invocation
and succeeds on every later one. -/
def fnTokenExpiredOnce : Nat → Except MErr Nat :=
  fun k => if k = 0 then .error .tokenExpired else .ok 5

/-- A wrapped call that throws `RateLimitError` with `retryAfter = 500` on
its first invocation and succeeds on every later one. -/
def fnRateLimited500Once : Nat → Except MErr Nat :=
  fun k => if k = 0 then .error (.rateLimited (some 500)) else .ok 0

/-- A `refreshSession` script that always succeeds. -/
def refreshAlwaysOk : Nat → Option MErr := fun _ => none

/-- C2 counterexample: in a session with no refresh token, a first-attempt
`TokenExpiredError` followed by a success is retried through the generic
exponential-backoff branch: the caller observes the success, but the
orchestrator performs zero `refreshSession` calls and sleeps a 1000 ms
backoff delay, contradicting the claim's "exactly one refreshSession call
... with no backoff delay" for every wrapped call. -/
theorem C2_counterexample_no_refresh_token :
    fnTokenExpiredOnce 0 = .error .tokenExpired ∧
    fnTokenExpiredOnce 1 = .ok 5 ∧
    (retryRun false fnTokenExpiredOnce refreshAlwaysOk MAX_RETRIES).outcome = .ok 5 ∧
    (retryRun false fnTokenExpiredOnce refreshAlwaysOk MAX_RETRIES).refreshCalls = 0 ∧
    (retryRun false fnTokenExpiredOnce refreshAlwaysOk MAX_RETRIES).delays = [1000] ∧
    ¬ ((retryRun false fnTokenExpiredOnce refreshAlwaysOk MAX_RETRIES).refreshCalls = 1 ∧
       (retryRun false fnTokenExpiredOnce refreshAlwaysOk MAX_RETRIES).delays = []) := by
  refine ⟨rfl, rfl, rfl, rfl, rfl, ?_⟩
  intro h
  exact absurd h.1 (by decide)

/-- C2 (amended): for every wrapped call, in a session holding a refresh
token, when the first attempt fails with `TokenExpiredError`, the refresh
succeeds, and the next attempt succeeds, the orchestrator performs exactly
one `refreshSession` call, sleeps no backoff delay, and the caller
observes the success, never the original error. -/
theorem C2_token_expired_refresh_success {α : Type} (m : Nat)
    (fn : Nat → Except MErr α) (refresh : Nat → Option MErr) (v : α)
    (h0 : fn 0 = .error .tokenExpired) (hr : refresh 0 = none)
    (h1 : fn 1 = .ok v) :
    retryRun true fn refresh (m + 1) =
      { outcome := .ok v, refreshCalls := 1, delays := [], fnCalls := 2 } := by
  simp [retryRun, retryAux, h0, hr, h1,
    MErr.isAuthenticationError, MErr.isTokenExpired]

/-- Witness for C2 at the concrete scripts and the default retry budget. -/
theorem C2_token_expired_refresh_success_witness :
    retryRun true fnTokenExpiredOnce refreshAlwaysOk MAX_RETRIES =
      { outcome := .ok 5, refreshCalls := 1, delays := [], fnCalls := 2 } :=
  C2_token_expired_refresh_success 2 fnTokenExpiredOnce refreshAlwaysOk 5
    rfl rfl rfl

/-- C3: an authentication error that is not a `TokenExpiredError` (plain
`AuthenticationError` or `SessionInvalidError`) is terminal: the
orchestrator re-raises it from the first attempt with no retry attempt,
no refresh, and no backoff delay, whatever the retry budget. -/
theorem C3_auth_error_terminal {α : Type} (hasRT : Bool)
    (fn : Nat → Except MErr α) (refresh : Nat → Option MErr)
    (maxRetries : Nat) (e : MErr)
    (hA : e.isAuthenticationError = true) (hT : e.isTokenExpired = false)
    (h0 : fn 0 = .error e) :
    retryRun hasRT fn refresh maxRetries =
      { outcome := .error e, refreshCalls := 0, delays := [], fnCalls := 1 } := by
  simp [retryRun, retryAux, h0, hA, hT]

/-- Witness for C3 at a concrete `SessionInvalidError` script. -/
theorem C3_auth_error_terminal_witness :
    retryRun true (fun _ => (.error .sessionInvalid : Except MErr Nat))
        refreshAlwaysOk MAX_RETRIES =
      { outcome := .error .sessionInvalid, refreshCalls := 0, delays := [],
        fnCalls := 1 } :=
  C3_auth_error_terminal true _ refreshAlwaysOk MAX_RETRIES .sessionInvalid
    rfl rfl rfl

/-- C4 counterexample: a first-attempt `RateLimitError` carrying a
server-supplied `retryAfter` of 500 ms is retried after exactly 500 ms
(the code computes `(error.retryAfter || RETRY_DELAY) * multiplier ^
attempt`), not after `max(500, baseDelay) * multiplier ^ 0 = 1000` ms as
the claim states. -/
theorem C4_counterexample_retry_after_not_max :
    (retryRun true fnRateLimited500Once refreshAlwaysOk MAX_RETRIES).delays
      = [500] ∧
    max 500 RETRY_DELAY * RETRY_MULTIPLIER ^ 0 = 1000 ∧
    (500 : Nat) ≠ 1000 := by
  refine ⟨rfl, by decide, by decide⟩

/-- The delay the code attaches to a `RateLimitError` at attempt `n`. -/
def rateLimitDelay (ra : Option Nat) (n : Nat) : Nat :=
  jsOrNat ra RETRY_DELAY * RETRY_MULTIPLIER ^ n

/-- Helper: a run of the retry loop in which every attempt fails with the
same `RateLimitError` records one `rateLimitDelay` per attempt and ends by
re-raising the error. -/
theorem retryAux_all_rate_limited {α : Type} (hasRT : Bool)
    (fn : Nat → Except MErr α) (refresh : Nat → Option MErr)
    (maxRetries : Nat) (ra : Option Nat)
    (hfn : ∀ k, fn k = .error (.rateLimited ra)) :
    ∀ fuel attempt refreshIdx delaysRev lastError,
      retryAux hasRT fn refresh maxRetries (fuel + 1) attempt refreshIdx
          delaysRev lastError =
        { outcome := .error (.rateLimited ra), refreshCalls := refreshIdx,
          delays := delaysRev.reverse ++
            (List.range' attempt (fuel + 1)).map (rateLimitDelay ra),
          fnCalls := attempt + fuel + 1 } := by
  intro fuel
  induction fuel with
  | zero =>
      intro attempt refreshIdx delaysRev lastError
      simp [retryAux, hfn, MErr.isAuthenticationError,
        MErr.isTokenExpired, MErr.rateLimitRetryAfter, rateLimitDelay]
  | succ fuel ih =>
      intro attempt refreshIdx delaysRev lastError
      calc retryAux hasRT fn refresh maxRetries (fuel + 1 + 1) attempt
              refreshIdx delaysRev lastError
          = retryAux hasRT fn refresh maxRetries (fuel + 1) (attempt + 1)
              refreshIdx (rateLimitDelay ra attempt :: delaysRev)
              (some (.rateLimited ra)) := by
            simp only [retryAux, hfn, MErr.isAuthenticationError,
              MErr.isTokenExpired, MErr.rateLimitRetryAfter, rateLimitDelay]
            simp
        _ = { outcome := .error (.rateLimited ra), refreshCalls := refreshIdx,
              delays := delaysRev.reverse ++
                (List.range' attempt (fuel + 1 + 1)).map (rateLimitDelay ra),
              fnCalls := attempt + (fuel + 1) + 1 } := by
            rw [ih]
            simp [List.range'_succ, Nat.add_assoc, Nat.add_comm 1]

/-- C4 (amended): for every `retryAfter` value, an attempt `n` that fails
with a `RateLimitError` is retried after
`(retryAfter when present and nonzero, otherwise baseDelay) * multiplier ^ n`
milliseconds; consecutive `RateLimitError` failures all carrying the same
`retryAfter` therefore produce monotonically non-decreasing delays, shown
here for a full run of the default retry budget in which every attempt is
rate limited. -/
theorem C4_rate_limit_delays {α : Type} (ra : Option Nat)
    (refresh : Nat → Option MErr) (hasRT : Bool)
    (fn : Nat → Except MErr α)
    (hfn : ∀ k, fn k = .error (.rateLimited ra)) :
    retryRun hasRT fn refresh MAX_RETRIES =
      { outcome := .error (.rateLimited ra), refreshCalls := 0,
        delays := [rateLimitDelay ra 0, rateLimitDelay ra 1,
          rateLimitDelay ra 2, rateLimitDelay ra 3],
        fnCalls := 4 } ∧
    (∀ n, rateLimitDelay ra n ≤ rateLimitDelay ra (n + 1)) ∧
    List.Chain' (· ≤ ·) [rateLimitDelay ra 0, rateLimitDelay ra 1,
      rateLimitDelay ra 2, rateLimitDelay ra 3] := by
  have hmono : ∀ n, rateLimitDelay ra n ≤ rateLimitDelay ra (n + 1) := by
    intro n
    exact Nat.mul_le_mul_left _
      (Nat.pow_le_pow_right (by decide) (Nat.le_succ n))
  refine ⟨?_, hmono, ?_⟩
  · have h := retryAux_all_rate_limited hasRT fn refresh MAX_RETRIES ra hfn
      3 0 0 [] none
    have hrun : retryRun hasRT fn refresh MAX_RETRIES =
        retryAux hasRT fn refresh MAX_RETRIES (3 + 1) 0 0 [] none := rfl
    rw [hrun, h]
    simp [List.range']
  · simp only [List.chain'_cons, List.chain'_singleton, and_true]
    exact ⟨hmono 0, hmono 1, hmono 2⟩

/-- A session holding cached credentials but no refresh token. -/
def sessionNoRefreshToken : Session :=
  { accessToken := some "tok", refreshToken := none,
    tokenExpiry := some 1000000, identityId := some "user-1",
    clientId := some "123_4567890_1", iotEndpoint := none, region := "EU",
    email := some "user@example.com", password := some "secret",
    iotToken := some "tok", iotTokenExpiry := some 1000000 }

/-- C5 counterexample: with original credentials cached but no refresh
token present, `refreshSession()` throws the `AuthenticationError`
"No refresh token available" immediately and performs zero `authenticate`
calls, contradicting the claim that this case falls back to exactly one
full `authenticate`. -/
theorem C5_counterexample_no_token_no_fallback :
    sessionNoRefreshToken.refreshToken = none ∧
    truthyStr sessionNoRefreshToken.email = true ∧
    truthyStr sessionNoRefreshToken.password = true ∧
    (refreshSessionRun sessionNoRefreshToken .ok (.ok ())).result
      = .error (.authError "No refresh token available") ∧
    (refreshSessionRun sessionNoRefreshToken .ok (.ok ())).authCalls = 0 ∧
    (0 : Nat) ≠ 1 := by
  exact ⟨rfl, by decide, by decide, rfl, rfl, by decide⟩

/-- C5 (amended): when a refresh token is present and the refresh call
itself throws, `refreshSession()` with cached credentials falls back to
exactly one full `authenticate`, whose outcome — success or failure — is
returned directly (no second fallback); when no refresh token is present
it throws an `AuthenticationError` immediately, with no fallback at all,
even when credentials are cached. -/
theorem C5_refresh_fallback_once (s t : Session) (e : MErr)
    (authOutcome authOutcome2 : Except MErr Unit) (net : RefreshNet)
    (hrt : truthyStr s.refreshToken = true)
    (hem : truthyStr s.email = true) (hpw : truthyStr s.password = true)
    (hnt : truthyStr t.refreshToken = false) :
    refreshSessionRun s (.throws e) authOutcome
      = { result := authOutcome, authCalls := 1 } ∧
    refreshSessionRun t net authOutcome2
      = { result := .error (.authError "No refresh token available"),
          authCalls := 0 } := by
  constructor
  · simp [refreshSessionRun, hrt, hem, hpw]
  · simp [refreshSessionRun, hnt]

/-- Witness for C5 (amended): a session with a refresh token whose refresh
call throws a `NetworkError` and whose fallback `authenticate` fails,
alongside `sessionNoRefreshToken`. -/
theorem C5_refresh_fallback_once_witness :
    refreshSessionRun
        { sessionNoRefreshToken with refreshToken := some "rt" }
        (.throws .networkError) (.error (.authError "bad credentials"))
      = { result := .error (.authError "bad credentials"), authCalls := 1 } ∧
    refreshSessionRun sessionNoRefreshToken .ok (.ok ())
      = { result := .error (.authError "No refresh token available"),
          authCalls := 0 } :=
  C5_refresh_fallback_once _ _ .networkError _ (.ok ()) .ok
    (by decide) (by decide) (by decide) (by decide)

/-- C6: for every session and nonnegative clock value, `isAuthenticated()`
is true exactly when the effective token (`accessToken || iotToken`) is a
nonempty string and the effective expiry (`tokenExpiry || iotTokenExpiry`)
is present and strictly exceeds `now` plus the 5-minute buffer; in
particular it is false whenever the expiry is within 5 minutes of `now`,
even if a token is present. -/
theorem C6_isAuthenticated_buffer (s : Session) (now : Int)
    (hnow : 0 ≤ now) :
    (isAuthenticated s now = true ↔
      ((∃ t, jsOrStr s.accessToken s.iotToken = some t ∧ t ≠ "") ∧
       (∃ e, jsOrInt s.tokenExpiry s.iotTokenExpiry = some e ∧
         e > now + 5 * 60 * 1000))) ∧
    (∀ e, jsOrInt s.tokenExpiry s.iotTokenExpiry = some e →
      e ≤ now + 5 * 60 * 1000 → isAuthenticated s now = false) := by
  constructor
  · cases htok : jsOrStr s.accessToken s.iotToken with
    | none => simp [isAuthenticated, truthyStr, htok]
    | some t =>
        cases hexp : jsOrInt s.tokenExpiry s.iotTokenExpiry with
        | none =>
            have hf : ¬ ((0 : Int) > now + 5 * 60 * 1000) := by omega
            simp [isAuthenticated, truthyStr, jsNum, htok, hexp, hf]
            intro _
            omega
        | some e =>
            simp [isAuthenticated, truthyStr, jsNum, htok, hexp, and_comm]
  · intro e he hle
    have hf : ¬ (e > now + 5 * 60 * 1000) := by omega
    simp [isAuthenticated, jsNum, he, hf]
    intro _
    omega

/-- A fully-populated authenticated session used as a concrete input. -/
def sessionFull : Session :=
  { accessToken := some "atok", refreshToken := some "rtok",
    tokenExpiry := some 1000000, identityId := some "user-1",
    clientId := some "123_4567890_1", iotEndpoint := some "https://iot.example",
    region := "EU", email := some "user@example.com", password := some "secret",
    iotToken := some "atok", iotTokenExpiry := some 1000000 }

/-- Witness for C6: the fully-populated session is authenticated at clock
0 (expiry 1000000 exceeds the 300000 ms buffer), and not authenticated at
clock 700001 (expiry within 5 minutes). -/
theorem C6_isAuthenticated_buffer_witness :
    isAuthenticated sessionFull 0 = true ∧
    isAuthenticated sessionFull 700001 = false := by
  constructor
  · exact (C6_isAuthenticated_buffer sessionFull 0 (by decide)).1.mpr
      ⟨⟨"atok", by decide, by decide⟩, ⟨1000000, by decide, by decide⟩⟩
  · exact (C6_isAuthenticated_buffer sessionFull 700001 (by decide)).2
      1000000 (by decide) (by decide)

/-- Witness for C4 (amended) at a concrete `retryAfter` of 500 ms. -/
theorem C4_rate_limit_delays_witness :
    retryRun true (fun _ => (.error (.rateLimited (some 500)) : Except MErr Nat))
        refreshAlwaysOk MAX_RETRIES =
      { outcome := .error (.rateLimited (some 500)), refreshCalls := 0,
        delays := [500, 1000, 2000, 4000], fnCalls := 4 } := by
  have h := (C4_rate_limit_delays (some 500) refreshAlwaysOk true
    (fun _ => (.error (.rateLimited (some 500)) : Except MErr Nat))
    (fun _ => rfl)).1
  simpa [rateLimitDelay, jsOrNat, RETRY_DELAY, RETRY_MULTIPLIER] using h

/-- The freshly generated client id is never the blank string: it always
ends in the literal suffix. -/
theorem generateMammotionClientId_ne_blank (timestamp random : Nat) :
    generateMammotionClientId timestamp random ≠ "" := by
  intro h
  have hlen := congrArg String.length h
  simp [generateMammotionClientId, String.length_append] at hlen
  exact absurd hlen.1.1.2 (by decide)

/-- C9: restoring the export of a fully-populated consistent session into
any receiver reproduces the session on every exported field, including the
client id; a legacy blob carrying only `iotToken` / `iotTokenExpiry`
restores those into the current token fields; and a restore never leaves
the client identifier absent or blank. -/
theorem C9_auth_state_round_trip (s : Session)
    (a r cid em : String) (x : Int)
    (hta : s.accessToken = some a) (ha : a ≠ "")
    (_hre : s.refreshToken = some r)
    (hte : s.tokenExpiry = some x) (hx : x ≠ 0)
    (hcl : s.clientId = some cid) (hc : cid ≠ "")
    (_hem : s.email = some em) (hrg : s.region ≠ "")
    (hit : s.iotToken = s.accessToken) (hix : s.iotTokenExpiry = s.tokenExpiry) :
    (∀ (prev : Session) (ts rand : Nat),
      restoreAuthState prev (getAuthState s) ts rand =
        { prev with
          accessToken := s.accessToken, refreshToken := s.refreshToken,
          tokenExpiry := s.tokenExpiry, identityId := s.identityId,
          clientId := s.clientId, iotEndpoint := s.iotEndpoint,
          region := s.region, email := s.email,
          iotToken := s.iotToken, iotTokenExpiry := s.iotTokenExpiry }) ∧
    (∀ (legacy : AuthState) (prev : Session) (ts rand : Nat) (t : String) (y : Int),
      legacy.accessToken = none → legacy.tokenExpiry = none →
      legacy.iotToken = some t → t ≠ "" →
      legacy.iotTokenExpiry = some y → y ≠ 0 →
      (restoreAuthState prev legacy ts rand).accessToken = some t ∧
      (restoreAuthState prev legacy ts rand).tokenExpiry = some y ∧
      (restoreAuthState prev legacy ts rand).iotToken = some t) ∧
    (∀ (st : AuthState) (prev : Session) (ts rand : Nat),
      ∃ c, (restoreAuthState prev st ts rand).clientId = some c ∧ c ≠ "") := by
  refine ⟨?_, ?_, ?_⟩
  · intro prev ts rand
    simp [restoreAuthState, getAuthState, jsOrStr, jsOrInt, hta, hte, hcl,
      ha, hx, hc, hrg, hit, hix]
  · intro legacy prev ts rand t y hla hlt hli hti hlx hy
    simp [restoreAuthState, jsOrStr, jsOrInt, hla, hlt, hli, hti, hlx, hy]
  · intro st prev ts rand
    cases hcl2 : st.clientId with
    | none =>
        exact ⟨generateMammotionClientId ts rand,
          by simp [restoreAuthState, jsOrStr, hcl2],
          generateMammotionClientId_ne_blank ts rand⟩
    | some c =>
        by_cases hcb : c = ""
        · exact ⟨generateMammotionClientId ts rand,
            by simp [restoreAuthState, jsOrStr, hcl2, hcb],
            generateMammotionClientId_ne_blank ts rand⟩
        · exact ⟨c, by simp [restoreAuthState, jsOrStr, hcl2, hcb], hcb⟩

/-- Witness for C9 at the fully-populated session, a blank receiver, and
a concrete legacy blob. -/
theorem C9_auth_state_round_trip_witness :
    restoreAuthState sessionNoRefreshToken (getAuthState sessionFull) 7 1234567 =
      { sessionNoRefreshToken with
        accessToken := sessionFull.accessToken,
        refreshToken := sessionFull.refreshToken,
        tokenExpiry := sessionFull.tokenExpiry,
        identityId := sessionFull.identityId,
        clientId := sessionFull.clientId,
        iotEndpoint := sessionFull.iotEndpoint,
        region := sessionFull.region, email := sessionFull.email,
        iotToken := sessionFull.iotToken,
        iotTokenExpiry := sessionFull.iotTokenExpiry } ∧
    (restoreAuthState sessionFull
        { accessToken := none, refreshToken := none, tokenExpiry := none,
          identityId := none, clientId := none, iotEndpoint := none,
          region := none, email := none, iotToken := some "legacy-tok",
          iotTokenExpiry := some 42 } 7 1234567).accessToken
      = some "legacy-tok" := by
  have h := C9_auth_state_round_trip sessionFull "atok" "rtok" "123_4567890_1"
    "user@example.com" 1000000 rfl (by decide) rfl rfl (by decide) rfl
    (by decide) rfl (by decide) rfl rfl
  refine ⟨h.1 sessionNoRefreshToken 7 1234567, ?_⟩
  exact (h.2.1 _ sessionFull 7 1234567 "legacy-tok" 42 rfl rfl rfl (by decide)
    rfl (by decide)).1

/-- C10: the state blob exported by `getAuthState()` carries no password:
two sessions differing only in the stored password export identical
blobs. -/
theorem C10_password_never_exported (s : Session) (p1 p2 : Option String) :
    getAuthState { s with password := p1 } = getAuthState { s with password := p2 } :=
  rfl

/-- On association lists with pairwise-distinct keys, `find?` by key is
invariant under permutation. -/
theorem find?_key_perm {p1 p2 : List (String × String)} (h : p1.Perm p2) :
    (p1.map Prod.fst).Nodup → ∀ k,
      p1.find? (fun p => p.1 == k) = p2.find? (fun p => p.1 == k) := by
  induction h with
  | nil => intro _ _; rfl
  | cons a _ ih =>
      intro hnd k
      simp only [List.find?_cons]
      cases ha : (a.1 == k) with
      | true => rfl
      | false =>
          exact ih (by simpa using (List.nodup_cons.mp (by simpa using hnd)).2) k
  | swap x y l =>
      intro hnd k
      have hnd2 : y.1 ∉ (x.1 :: List.map Prod.fst l) := by
        have h0 := hnd
        simp only [List.map_cons, List.nodup_cons] at h0
        exact h0.1
      have hxy : y.1 ≠ x.1 := fun he => hnd2 (by rw [he]; exact List.mem_cons_self _ _)
      cases hy : (y.1 == k) with
      | true =>
          have hyk : y.1 = k := by simpa using hy
          have hx : (x.1 == k) = false := by
            apply beq_false_of_ne
            intro he
            exact hxy (hyk.trans he.symm)
          simp [List.find?_cons, hy, hx]
      | false =>
          cases hx : (x.1 == k) <;> simp [List.find?_cons, hy, hx]
  | trans h12 _ ih12 ih23 =>
      intro hnd k
      exact (ih12 hnd k).trans (ih23 ((h12.map Prod.fst).nodup hnd) k)

/-- On association lists with pairwise-distinct keys, `params[key]` is
invariant under permutation. -/
theorem getParam_perm {p1 p2 : List (String × String)} (h : p1.Perm p2)
    (hnd : (p1.map Prod.fst).Nodup) (k : String) :
    getParam p1 k = getParam p2 k := by
  unfold getParam
  rw [find?_key_perm h hnd k]

/-- Two permuted key lists have the same insertion sort (lexicographic
order is antisymmetric). -/
theorem insertionSort_perm_eq {l1 l2 : List String} (h : l1.Perm l2) :
    List.insertionSort (· ≤ ·) l1 = List.insertionSort (· ≤ ·) l2 :=
  List.eq_of_perm_of_sorted
    ((List.perm_insertionSort _ l1).trans
      (h.trans (List.perm_insertionSort _ l2).symm))
    (List.sorted_insertionSort _ l1) (List.sorted_insertionSort _ l2)

/-- The canonical query string is invariant under permutation of a
distinct-key parameter list. -/
theorem sortParams_perm {p1 p2 : List (String × String)} (h : p1.Perm p2)
    (hnd : (p1.map Prod.fst).Nodup) : sortParams p1 = sortParams p2 := by
  unfold sortParams
  rw [insertionSort_perm_eq (h.map Prod.fst)]
  congr 1
  exact List.map_congr_left fun k _ => by rw [getParam_perm h hnd k]

/-- Spreading a permuted distinct-key object over the same base object
yields a permutation of the result. -/
theorem mergeParams_perm_right (a : List (String × String))
    {p1 p2 : List (String × String)} (h : p1.Perm p2)
    (hnd : (p1.map Prod.fst).Nodup) :
    (mergeParams a p1).Perm (mergeParams a p2) := by
  unfold mergeParams
  have hmap : a.map (fun p => (p.1, ((p1.find? (fun q => q.1 == p.1)).map Prod.snd).getD p.2))
      = a.map (fun p => (p.1, ((p2.find? (fun q => q.1 == p.1)).map Prod.snd).getD p.2)) :=
    List.map_congr_left fun p _ => by rw [find?_key_perm h hnd p.1]
  rw [hmap]
  exact List.Perm.append_left _ (h.filter _)

/-- The spread of two distinct-key objects has distinct keys. -/
theorem mergeParams_keys_nodup {a b : List (String × String)}
    (ha : (a.map Prod.fst).Nodup) (hb : (b.map Prod.fst).Nodup) :
    ((mergeParams a b).map Prod.fst).Nodup := by
  unfold mergeParams
  rw [List.map_append, List.map_map]
  have h1 : (a.map (Prod.fst ∘ fun p =>
      (p.1, ((b.find? (fun q => q.1 == p.1)).map Prod.snd).getD p.2)))
      = a.map Prod.fst := by
    simp [Function.comp]
  rw [h1]
  refine List.Nodup.append ha ?_ ?_
  · exact ((List.filter_sublist b).map Prod.fst).nodup hb
  · intro x hxa hxf
    obtain ⟨q, hq, rfl⟩ := List.mem_map.mp hxf
    have hq2 := List.mem_filter.mp hq
    have hnone : ∀ p ∈ a, (p.1 == q.1) = false := by
      have := hq2.2
      simpa [List.any_eq_true] using this
    obtain ⟨p, hp, hpq⟩ := List.mem_map.mp hxa
    have hbeq : (p.1 == q.1) = true := by simpa using hpq
    rw [hnone p hp] at hbeq
    exact Bool.false_ne_true hbeq

/-- C7: the Aliyun-style canonical string, and hence the signature (an
HMAC-SHA256 over `path + "&" + sortedParams` under the application
secret), is invariant under any reordering of the input parameter keys,
given the same timestamp, nonce and token. -/
theorem C7_aliyun_signature_order_invariant
    (hmacSha256 : String → String → String) (path : String)
    (p1 p2 : List (String × String)) (iotToken : Option String)
    (timestamp nonce : String) (hperm : p1.Perm p2)
    (hnd : (p1.map Prod.fst).Nodup) :
    sortParams (mergeParams (commonApiParams timestamp nonce iotToken) p1)
      = sortParams (mergeParams (commonApiParams timestamp nonce iotToken) p2) ∧
    (generateApiSignature hmacSha256 path p1 iotToken timestamp nonce).signature
      = (generateApiSignature hmacSha256 path p2 iotToken timestamp nonce).signature := by
  have hcommon : ((commonApiParams timestamp nonce iotToken).map Prod.fst).Nodup := by
    unfold commonApiParams
    cases truthyStr iotToken <;> simp
  have hcanon :
      sortParams (mergeParams (commonApiParams timestamp nonce iotToken) p1)
        = sortParams (mergeParams (commonApiParams timestamp nonce iotToken) p2) :=
    sortParams_perm (mergeParams_perm_right _ hperm hnd)
      (mergeParams_keys_nodup hcommon hnd)
  refine ⟨hcanon, ?_⟩
  simp only [generateApiSignature]
  rw [hcanon]

/-- Witness for C7: two orderings of the same two-parameter mapping, a
concrete token, timestamp and nonce, and a stand-in MAC. -/
theorem C7_aliyun_signature_order_invariant_witness :
    sortParams (mergeParams (commonApiParams "100" "n-1" (some "tok"))
        [("b", "2"), ("a", "1")])
      = sortParams (mergeParams (commonApiParams "100" "n-1" (some "tok"))
        [("a", "1"), ("b", "2")]) ∧
    (generateApiSignature (fun s k => s ++ "#" ++ k) "/thing/properties/get"
        [("b", "2"), ("a", "1")] (some "tok") "100" "n-1").signature
      = (generateApiSignature (fun s k => s ++ "#" ++ k) "/thing/properties/get"
        [("a", "1"), ("b", "2")] (some "tok") "100" "n-1").signature :=
  C7_aliyun_signature_order_invariant (fun s k => s ++ "#" ++ k)
    "/thing/properties/get" [("b", "2"), ("a", "1")] [("a", "1"), ("b", "2")]
    (some "tok") "100" "n-1" (List.Perm.swap ("a", "1") ("b", "2") [])
    (by decide)

/-- Cancellation: with a fixed prefix and suffix, the middle segment of a
string concatenation is determined. -/
theorem append_middle_cancel {c r t1 t2 : String}
    (h : c ++ t1 ++ r = c ++ t2 ++ r) : t1 = t2 := by
  have hd := congrArg String.data h
  simp only [String.data_append] at hd
  exact String.ext (List.append_cancel_left (List.append_cancel_right hd))

/-- C8: the vendor-OAuth signature is exactly the keyed MAC (HMAC-SHA256,
hex output, keyed by the hex MD5 digest of the client secret) of
`clientId + timestamp + endpointPath + compactJSON(request)`; signing the
same request at the same timestamp is deterministic, and — whenever the
keyed MAC does not collide, which is what hex HMAC-SHA256 is relied on
for — different timestamps yield different signatures, because the signed
strings themselves differ. -/
theorem C8_oauth_signature_timestamped
    (hmacSha256Hex : String → String → String) (md5Hex : String → String)
    (req : List (String × String)) (tokenEndpoint ts1 ts2 : String)
    (hinj : ∀ m1 m2,
      hmacSha256Hex (md5Hex MAMMOTION_OAUTH2_CLIENT_SECRET) m1
        = hmacSha256Hex (md5Hex MAMMOTION_OAUTH2_CLIENT_SECRET) m2 → m1 = m2)
    (hne : ts1 ≠ ts2) :
    (createMammotionOAuthSignature hmacSha256Hex md5Hex req tokenEndpoint ts1).1
      = hmacSha256Hex (md5Hex MAMMOTION_OAUTH2_CLIENT_SECRET)
          (MAMMOTION_OAUTH2_CLIENT_ID ++ ts1 ++ tokenEndpoint
            ++ compactJsonObj req) ∧
    (∀ req2 ts3, req2 = req → ts3 = ts1 →
      (createMammotionOAuthSignature hmacSha256Hex md5Hex req2 tokenEndpoint ts3).1
        = (createMammotionOAuthSignature hmacSha256Hex md5Hex req tokenEndpoint ts1).1) ∧
    (createMammotionOAuthSignature hmacSha256Hex md5Hex req tokenEndpoint ts1).1
      ≠ (createMammotionOAuthSignature hmacSha256Hex md5Hex req tokenEndpoint ts2).1 := by
  refine ⟨rfl, ?_, ?_⟩
  · intro req2 ts3 h1 h2
    rw [h1, h2]
  · intro h
    have hs := hinj _ _ h
    have h2 : MAMMOTION_OAUTH2_CLIENT_ID ++ ts1 ++ (tokenEndpoint ++ compactJsonObj req)
        = MAMMOTION_OAUTH2_CLIENT_ID ++ ts2 ++ (tokenEndpoint ++ compactJsonObj req) := by
      simpa [String.append_assoc] using hs
    exact hne (append_middle_cancel h2)

/-- Witness for C8: a stand-in collision-free MAC, a concrete request and
two concrete distinct timestamps. -/
theorem C8_oauth_signature_timestamped_witness :
    (createMammotionOAuthSignature (fun _ m => m) id
        [("client_id", "GxebgSt8si6pKqR"), ("grant_type", "refresh_token")]
        "/oauth2/token" "1700000000001").1
      = (fun _ m => m : String → String → String)
          (id MAMMOTION_OAUTH2_CLIENT_SECRET)
          (MAMMOTION_OAUTH2_CLIENT_ID ++ "1700000000001" ++ "/oauth2/token"
            ++ compactJsonObj
              [("client_id", "GxebgSt8si6pKqR"), ("grant_type", "refresh_token")]) ∧
    (∀ req2 ts3,
      req2 = [("client_id", "GxebgSt8si6pKqR"), ("grant_type", "refresh_token")] →
      ts3 = "1700000000001" →
      (createMammotionOAuthSignature (fun _ m => m) id req2
          "/oauth2/token" ts3).1
        = (createMammotionOAuthSignature (fun _ m => m) id
            [("client_id", "GxebgSt8si6pKqR"), ("grant_type", "refresh_token")]
            "/oauth2/token" "1700000000001").1) ∧
    (createMammotionOAuthSignature (fun _ m => m) id
        [("client_id", "GxebgSt8si6pKqR"), ("grant_type", "refresh_token")]
        "/oauth2/token" "1700000000001").1
      ≠ (createMammotionOAuthSignature (fun _ m => m) id
        [("client_id", "GxebgSt8si6pKqR"), ("grant_type", "refresh_token")]
        "/oauth2/token" "1700000000002").1 :=
  C8_oauth_signature_timestamped (fun _ m => m) id
    [("client_id", "GxebgSt8si6pKqR"), ("grant_type", "refresh_token")]
    "/oauth2/token" "1700000000001" "1700000000002"
    (fun _ _ h => h) (by decide)

end Mammotion
